import Mathlib

/-!
# Boost.TypeIndex: the user-defined backend example and the backend selection

Shallow embedding of

* `examples/user_defined_typeinfo.cpp`: `detail::typenum`, `detail::my_typeinfo`,
  `detail::my_typeinfo_construct`, `my_type_index`;
* `include/boost/type_index.hpp`: the preprocessor selection of the backend and the
  forwarding functions `type_id`, `type_id_with_cvr`.

Machine model.  A `char` is modelled by its 8-bit object representation (`Fin 256`);
whether plain `char` is signed is a parameter `char_signed`; `std::size_t` has 64 bits.
A pointer to an immutable static record is modelled by the record it points to.
A read of a C string that finds no terminator inside the object it started in is an
out-of-bounds read and is modelled by `none`, as is an out-of-bounds table lookup.
-/

namespace my_namespace

/-- The 8-bit object representation of a `char`. -/
abbrev c_char := Fin 256

/-- The types for which `detail::typenum<T>` is specialised. -/
inductive registered_type where
  | void
  | my_class
  | my_struct
  | my_classes
  | my_string
  deriving DecidableEq

/-- The specialisations `detail::typenum<T>::value`. -/
def typenum : registered_type → Nat
  | .void => 0
  | .my_class => 1
  | .my_struct => 2
  | .my_classes => 3
  | .my_string => 4

/-- Conversion `static_cast<char>(v)` of a non-negative enumerator value: the low 8 bits. -/
def static_cast_char (v : Nat) : c_char := Fin.ofNat v

/-- Conversion `static_cast<std::size_t>(c)` of a `char`: a signed `char` with the top bit
set is negative and wraps modulo `2 ^ 64`. -/
def static_cast_size_t (char_signed : Bool) (c : c_char) : Nat :=
  if char_signed && decide (128 ≤ c.val) then 2 ^ 64 - 256 + c.val else c.val

/-- The record `detail::my_typeinfo`: `char type_[2]`, as the pair `(type_[0], type_[1])`. -/
structure my_typeinfo where
  type_ : c_char × c_char
  deriving DecidableEq

/-- The function `detail::my_typeinfo_construct<T>()`:
the static record `{{ static_cast<char>(typenum<T>::value), 0 }}`. -/
def my_typeinfo_construct (T : registered_type) : my_typeinfo :=
  ⟨(static_cast_char (typenum T), 0)⟩

/-- The class `my_type_index`: a pointer `data_` to an immutable `my_typeinfo`. -/
structure my_type_index where
  data_ : my_typeinfo
  deriving DecidableEq

/-- The default constructor `my_type_index()`. -/
def my_type_index.ctor_default : my_type_index :=
  ⟨my_typeinfo_construct registered_type.void⟩

/-- The public constructor `my_type_index(const type_info_t& data)`. -/
def my_type_index.ctor (data : my_typeinfo) : my_type_index :=
  ⟨data⟩

/-- The member `type_info()`. -/
def my_type_index.type_info (x : my_type_index) : my_typeinfo :=
  x.data_

/-- The member `raw_name()`: a pointer to the array `data_->type_`, modelled by the bytes
of that array. -/
def my_type_index.raw_name (x : my_type_index) : List c_char :=
  [x.data_.type_.1, x.data_.type_.2]

/-- The table `names` of `pretty_name()`. -/
def names : List String :=
  ["void", "my_class", "my_struct", "my_classes", "my_string"]

/-- The index computed in `pretty_name()`: `static_cast<std::size_t>(data_->type_[0])`. -/
def my_type_index.indx (char_signed : Bool) (x : my_type_index) : Nat :=
  static_cast_size_t char_signed x.data_.type_.1

/-- The member `pretty_name()`: `names[indx]`; `none` is a read outside the table. -/
def my_type_index.pretty_name (char_signed : Bool) (x : my_type_index) : Option String :=
  names.get? (x.indx char_signed)

/-- The static member `my_type_index::type_id<T>()`: the record of `T`, converted through
the public constructor. -/
def my_type_index.type_id (T : registered_type) : my_type_index :=
  my_type_index.ctor (my_typeinfo_construct T)

/-- The C string stored in a buffer: the bytes before the first zero byte; `none` when the
buffer holds no zero byte (the read would leave the object). -/
def c_str : List c_char → Option (List c_char)
  | [] => none
  | b :: rest => if b = 0 then some [] else (c_str rest).map (fun s => b :: s)

/-- The comparison of `strcmp` on two C strings, bytes compared as `unsigned char`:
negative, zero or positive. -/
def strcmp_chars : List c_char → List c_char → Int
  | [], [] => 0
  | [], _ :: _ => -1
  | _ :: _, [] => 1
  | a :: as, b :: bs => if a = b then strcmp_chars as bs else (a.val : Int) - (b.val : Int)

/-- The library function `strcmp` on two buffers: defined when both hold a C string. -/
def strcmp (p q : List c_char) : Option Int :=
  match c_str p, c_str q with
  | some s, some t => some (strcmp_chars s t)
  | _, _ => none

/-- Modelled from the spec: `operator==` of `type_index_facade`
(`boost/type_index/type_index_facade.hpp`, not among the sources), equality of the
zero-terminated `raw_name()` strings. -/
def my_type_index.equal (a b : my_type_index) : Option Bool :=
  (strcmp a.raw_name b.raw_name).map (fun r => decide (r = 0))

/-- Modelled from the spec: `operator<` of `type_index_facade`
(`boost/type_index/type_index_facade.hpp`, not among the sources), byte-sequence ordering of
the zero-terminated `raw_name()` strings. -/
def my_type_index.before (a b : my_type_index) : Option Bool :=
  (strcmp a.raw_name b.raw_name).map (fun r => decide (r < 0))

end my_namespace

namespace boost_typeind

/-- The macros tested by the preprocessor conditionals of `boost/type_index.hpp`; `true`
means the macro is defined. -/
structure config where
  BOOST_TYPE_INDEX_DOXYGEN_INVOKED : Bool
  BOOST_TYPE_INDEX_USER_TYPEINDEX : Bool
  BOOST_TYPE_INDEX_USER_TYPEINDEX_NAME : Bool
  BOOST_NO_RTTI : Bool
  BOOST_TYPE_INDEX_FORCE_NO_RTTI_COMPATIBILITY : Bool
  BOOST_MSVC : Bool
  deriving DecidableEq

/-- The header a build includes for the backend. -/
inductive header where
  | user_typeindex
  | stl_type_index_hpp
  | ctti_type_index_hpp
  deriving DecidableEq

/-- The type `boost::typeind::type_index` is declared to be. `platform_specific` is the
placeholder of the documentation branch, which is not C++. -/
inductive backend where
  | platform_specific
  | user_typeindex_name
  | stl_type_index
  | ctti_type_index
  deriving DecidableEq

/-- The conditional inclusion of the backend header: the `#if`/`#elif`/`#else` chain before
`namespace boost`. -/
def included_header (c : config) : header :=
  if c.BOOST_TYPE_INDEX_USER_TYPEINDEX && c.BOOST_TYPE_INDEX_USER_TYPEINDEX_NAME then
    header.user_typeindex
  else if (!c.BOOST_NO_RTTI && !c.BOOST_TYPE_INDEX_FORCE_NO_RTTI_COMPATIBILITY)
      || c.BOOST_MSVC then
    header.stl_type_index_hpp
  else
    header.ctti_type_index_hpp

/-- The conditional `typedef ... type_index;`. -/
def type_index (c : config) : backend :=
  if c.BOOST_TYPE_INDEX_DOXYGEN_INVOKED then
    backend.platform_specific
  else if c.BOOST_TYPE_INDEX_USER_TYPEINDEX && c.BOOST_TYPE_INDEX_USER_TYPEINDEX_NAME then
    backend.user_typeindex_name
  else if (!c.BOOST_NO_RTTI && !c.BOOST_TYPE_INDEX_FORCE_NO_RTTI_COMPATIBILITY)
      || c.BOOST_MSVC then
    backend.stl_type_index
  else
    backend.ctti_type_index

/-- The reference part of a C++ type. -/
inductive ref_qualifier where
  | none
  | lvalue
  | rvalue
  deriving DecidableEq

/-- A C++ type seen from its top level: an unqualified type `U`, the `const` and `volatile`
qualifiers on it, and whether the whole is a reference to that qualified type. -/
structure cvr_type (U : Type) where
  unqualified : U
  is_const : Bool
  is_volatile : Bool
  reference : ref_qualifier
  deriving DecidableEq

/-- The type `const T` for a template argument `T`: a qualifier applied to a reference type
is ignored. -/
def add_const {U : Type} (T : cvr_type U) : cvr_type U :=
  match T.reference with
  | ref_qualifier.none => ⟨T.unqualified, true, T.is_volatile, ref_qualifier.none⟩
  | _ => T

/-- The type `T&` for a template argument `T`, with reference collapsing. -/
def add_lvalue_reference {U : Type} (T : cvr_type U) : cvr_type U :=
  ⟨T.unqualified, T.is_const, T.is_volatile, ref_qualifier.lvalue⟩

/-- The type `T&&` for a template argument `T`, with reference collapsing. -/
def add_rvalue_reference {U : Type} (T : cvr_type U) : cvr_type U :=
  match T.reference with
  | ref_qualifier.none => ⟨T.unqualified, T.is_const, T.is_volatile, ref_qualifier.rvalue⟩
  | _ => T

/-- The trait `remove_reference<T>::type`. -/
def remove_reference {U : Type} (T : cvr_type U) : cvr_type U :=
  ⟨T.unqualified, T.is_const, T.is_volatile, ref_qualifier.none⟩

/-- The trait `remove_cv<T>::type`: the top-level qualifiers of a non-reference type; a
reference type has none. -/
def remove_cv {U : Type} (T : cvr_type U) : cvr_type U :=
  match T.reference with
  | ref_qualifier.none => ⟨T.unqualified, false, false, ref_qualifier.none⟩
  | _ => T

/-- Modelled from the spec: the static member `construct<T>()` of a backend
(`stl_type_index`, `ctti_type_index`; their headers are not among the sources). It
"normalizes `T` by stripping const/volatile/reference qualifiers, then returns the token for
the resulting unqualified type"; `typeinfo_of` is the backend's representation of a type. -/
def construct {U Token : Type} (typeinfo_of : cvr_type U → Token) (T : cvr_type U) : Token :=
  typeinfo_of (remove_cv (remove_reference T))

/-- Modelled from the spec: the static member `construct_with_cvr<T>()` of a backend
(`stl_type_index`, `ctti_type_index`; their headers are not among the sources). It "returns
a token that preserves const/volatile/reference qualifiers as part of identity". -/
def construct_with_cvr {U Token : Type} (typeinfo_of : cvr_type U → Token) (T : cvr_type U) :
    Token :=
  typeinfo_of T

/-- The function `type_id<T>()`: `type_index::construct<T>()`. -/
def type_id {U Token : Type} (typeinfo_of : cvr_type U → Token) (T : cvr_type U) : Token :=
  construct typeinfo_of T

/-- The function `type_id_with_cvr<T>()`: `type_index::construct_with_cvr<T>()`. -/
def type_id_with_cvr {U Token : Type} (typeinfo_of : cvr_type U → Token) (T : cvr_type U) :
    Token :=
  construct_with_cvr typeinfo_of T

end boost_typeind

/-! ## Lemmas on C strings and their comparison -/

namespace my_namespace

theorem strcmp_chars_self (s : List c_char) : strcmp_chars s s = 0 := by
  induction s with
  | nil => rfl
  | cons a as ih => simp [strcmp_chars, ih]

theorem strcmp_chars_eq_zero {s t : List c_char} (h : strcmp_chars s t = 0) : s = t := by
  induction s generalizing t with
  | nil =>
    cases t with
    | nil => rfl
    | cons b bs => simp [strcmp_chars] at h
  | cons a as ih =>
    cases t with
    | nil => simp [strcmp_chars] at h
    | cons b bs =>
      simp only [strcmp_chars] at h
      split_ifs at h with hab
      · rw [hab, ih h]
      · exact absurd (Fin.ext (by omega)) hab

theorem strcmp_chars_neg_iff_pos (s t : List c_char) :
    strcmp_chars s t < 0 ↔ 0 < strcmp_chars t s := by
  induction s generalizing t with
  | nil => cases t <;> simp [strcmp_chars]
  | cons a as ih =>
    cases t with
    | nil => simp [strcmp_chars]
    | cons b bs =>
      simp only [strcmp_chars]
      by_cases hab : a = b
      · subst hab
        simpa using ih bs
      · have hba : ¬ b = a := fun h => hab h.symm
        simp only [hab, hba, if_false]
        omega

theorem strcmp_chars_lt_trans {s t u : List c_char} (h1 : strcmp_chars s t < 0)
    (h2 : strcmp_chars t u < 0) : strcmp_chars s u < 0 := by
  induction s generalizing t u with
  | nil =>
    cases u with
    | nil => cases t <;> simp [strcmp_chars] at h1 h2
    | cons c cs => simp [strcmp_chars]
  | cons a as ih =>
    cases t with
    | nil => simp [strcmp_chars] at h1
    | cons b bs =>
      cases u with
      | nil => simp [strcmp_chars] at h2
      | cons c cs =>
        simp only [strcmp_chars] at h1 h2 ⊢
        by_cases hab : a = b
        · subst hab
          by_cases hac : a = c
          · subst hac
            simp only [if_true] at h1 h2 ⊢
            exact ih h1 h2
          · simp only [hac, if_false] at h2 ⊢
            exact h2
        · simp only [hab, if_false] at h1
          by_cases hbc : b = c
          · subst hbc
            simp only [hab, if_false]
            exact h1
          · simp only [hbc, if_false] at h2
            have hac : ¬ a = c := by
              intro h
              subst h
              omega
            simp only [hac, if_false]
            omega

end my_namespace

/-! ## Lemmas on the comparison of tokens -/

namespace my_namespace

theorem strcmp_chars_eq_of_nonneg {s t : List c_char} (h1 : 0 ≤ strcmp_chars s t)
    (h2 : 0 ≤ strcmp_chars t s) : s = t := by
  have h3 := strcmp_chars_neg_iff_pos t s
  apply strcmp_chars_eq_zero
  by_contra hne
  have h4 : 0 < strcmp_chars s t := by omega
  have h5 := h3.mpr h4
  omega

theorem strcmp_map_eq_some (p q : List c_char) (f : Int → Bool) (v : Bool) :
    (strcmp p q).map f = some v ↔
      ∃ s t, c_str p = some s ∧ c_str q = some t ∧ f (strcmp_chars s t) = v := by
  unfold strcmp
  cases hp : c_str p with
  | none => simp
  | some s =>
    cases hq : c_str q with
    | none => simp
    | some t => simp

theorem before_eq_some_true (a b : my_type_index) :
    a.before b = some true ↔
      ∃ s t, c_str a.raw_name = some s ∧ c_str b.raw_name = some t ∧ strcmp_chars s t < 0 := by
  unfold my_type_index.before
  rw [strcmp_map_eq_some]
  simp

theorem before_eq_some_false (a b : my_type_index) :
    a.before b = some false ↔
      ∃ s t, c_str a.raw_name = some s ∧ c_str b.raw_name = some t ∧ 0 ≤ strcmp_chars s t := by
  unfold my_type_index.before
  rw [strcmp_map_eq_some]
  simp

theorem equal_eq_some_true (a b : my_type_index) :
    a.equal b = some true ↔
      ∃ s t, c_str a.raw_name = some s ∧ c_str b.raw_name = some t ∧ strcmp_chars s t = 0 := by
  unfold my_type_index.equal
  rw [strcmp_map_eq_some]
  simp

theorem c_str_raw_name_of_terminated (a : my_type_index) (h : a.data_.type_.2 = 0) :
    ∃ s, c_str a.raw_name = some s := by
  unfold my_type_index.raw_name
  rw [h]
  by_cases h0 : a.data_.type_.1 = 0
  · exact ⟨[], by simp [c_str, h0]⟩
  · exact ⟨[a.data_.type_.1], by simp [c_str, h0]⟩

end my_namespace

/-! ## The example backend `my_type_index` -/

namespace my_namespace

/-- C1: for every two registered types `T` and `U`, `type_id<T>() == type_id<U>()` is defined
and holds if and only if `T` and `U` are the same type, and it is `false` if and only if they
differ. -/
theorem type_id_equal_iff_same_type (T U : registered_type) :
    ((my_type_index.type_id T).equal (my_type_index.type_id U) = some true ↔ T = U) ∧
    ((my_type_index.type_id T).equal (my_type_index.type_id U) = some false ↔ T ≠ U) := by
  cases T <;> cases U <;> decide

/-- C2: for every registered type, `type_id<T>().pretty_name()` is the name of `T`, with
`char` signed or unsigned. -/
theorem pretty_name_of_type_id (char_signed : Bool) :
    (my_type_index.type_id registered_type.void).pretty_name char_signed = some "void" ∧
    (my_type_index.type_id registered_type.my_class).pretty_name char_signed
      = some "my_class" ∧
    (my_type_index.type_id registered_type.my_struct).pretty_name char_signed
      = some "my_struct" ∧
    (my_type_index.type_id registered_type.my_classes).pretty_name char_signed
      = some "my_classes" ∧
    (my_type_index.type_id registered_type.my_string).pretty_name char_signed
      = some "my_string" := by
  cases char_signed <;> decide

/-- C3: a default-constructed `my_type_index` is the token of `void`: it is equal to a
default-constructed token and to `type_id<void>()`, its `pretty_name()` is "void", and it is
unequal to `type_id<T>()` for `my_class`, `my_struct`, `my_classes` and `my_string`. -/
theorem ctor_default_is_void (char_signed : Bool) :
    my_type_index.ctor_default = my_type_index.type_id registered_type.void ∧
    my_type_index.ctor_default.equal my_type_index.ctor_default = some true ∧
    my_type_index.ctor_default.equal (my_type_index.type_id registered_type.void)
      = some true ∧
    my_type_index.ctor_default.pretty_name char_signed = some "void" ∧
    my_type_index.ctor_default.equal (my_type_index.type_id registered_type.my_class)
      = some false ∧
    my_type_index.ctor_default.equal (my_type_index.type_id registered_type.my_struct)
      = some false ∧
    my_type_index.ctor_default.equal (my_type_index.type_id registered_type.my_classes)
      = some false ∧
    my_type_index.ctor_default.equal (my_type_index.type_id registered_type.my_string)
      = some false := by
  cases char_signed <;> decide

/-- C8: over all tokens, the ordering derived from `raw_name()` is never `true` on `(a, a)`,
is transitive, is `false` both ways on tokens that compare equal, and has a transitive
incomparability; on tokens whose record is zero-terminated (`type_[1] == 0`) the comparisons
are defined, `a < a` is `false`, and incomparability is equality. -/
theorem before_strict_weak_ordering (a b c : my_type_index) :
    a.before a ≠ some true ∧
    (a.before b = some true → b.before c = some true → a.before c = some true) ∧
    (a.equal b = some true → a.before b = some false ∧ b.before a = some false) ∧
    (a.before b = some false → b.before a = some false →
      b.before c = some false → c.before b = some false →
      a.before c = some false ∧ c.before a = some false) ∧
    (a.data_.type_.2 = 0 → b.data_.type_.2 = 0 →
      a.before a = some false ∧ (a.equal b).isSome = true ∧ (a.before b).isSome = true ∧
      ((a.before b = some false ∧ b.before a = some false) ↔ a.equal b = some true)) := by
  refine ⟨?_, ?_, ?_, ?_, ?_⟩
  · rw [Ne, before_eq_some_true]
    rintro ⟨s, t, hs, ht, hlt⟩
    rw [hs] at ht
    cases ht
    rw [strcmp_chars_self] at hlt
    exact absurd hlt (by decide)
  · rw [before_eq_some_true, before_eq_some_true, before_eq_some_true]
    rintro ⟨s, t, hs, ht, hst⟩ ⟨t2, u, ht2, hu, htu⟩
    rw [ht] at ht2
    cases ht2
    exact ⟨s, u, hs, hu, strcmp_chars_lt_trans hst htu⟩
  · rw [equal_eq_some_true, before_eq_some_false, before_eq_some_false]
    rintro ⟨s, t, hs, ht, hst⟩
    have hEq : s = t := strcmp_chars_eq_zero hst
    subst hEq
    exact ⟨⟨s, s, hs, ht, by rw [strcmp_chars_self]⟩, ⟨s, s, ht, hs, by rw [strcmp_chars_self]⟩⟩
  · rw [before_eq_some_false, before_eq_some_false, before_eq_some_false,
      before_eq_some_false, before_eq_some_false, before_eq_some_false]
    rintro ⟨s, t, hs, ht, hst⟩ ⟨t2, s2, ht2, hs2, hts⟩ ⟨t3, u, ht3, hu, htu⟩
      ⟨u2, t4, hu2, ht4, hut⟩
    rw [ht] at ht2 ht3 ht4
    rw [hs] at hs2
    rw [hu] at hu2
    cases ht2
    cases ht3
    cases ht4
    cases hs2
    cases hu2
    have hst0 : s = t := strcmp_chars_eq_of_nonneg hst hts
    have htu0 : t = u := strcmp_chars_eq_of_nonneg htu hut
    subst hst0
    subst htu0
    exact ⟨⟨s, s, hs, hu, by rw [strcmp_chars_self]⟩, ⟨s, s, hu, hs, by rw [strcmp_chars_self]⟩⟩
  · intro ha hb
    obtain ⟨s, hs⟩ := c_str_raw_name_of_terminated a ha
    obtain ⟨t, ht⟩ := c_str_raw_name_of_terminated b hb
    refine ⟨?_, ?_, ?_, ?_⟩
    · rw [before_eq_some_false]
      exact ⟨s, s, hs, hs, by rw [strcmp_chars_self]⟩
    · simp [my_type_index.equal, strcmp, hs, ht]
    · simp [my_type_index.before, strcmp, hs, ht]
    · rw [before_eq_some_false, before_eq_some_false, equal_eq_some_true]
      constructor
      · rintro ⟨⟨s2, t2, hs2, ht2, h1⟩, ⟨t3, s3, ht3, hs3, h2⟩⟩
        rw [hs] at hs2 hs3
        rw [ht] at ht2 ht3
        cases hs2
        cases hs3
        cases ht2
        cases ht3
        have hEq : s = t := strcmp_chars_eq_of_nonneg h1 h2
        subst hEq
        exact ⟨s, s, hs, ht, strcmp_chars_self s⟩
      · rintro ⟨s2, t2, hs2, ht2, h⟩
        rw [hs] at hs2
        rw [ht] at ht2
        cases hs2
        cases ht2
        have hEq : s = t := strcmp_chars_eq_zero h
        subst hEq
        exact ⟨⟨s, s, hs, ht, by rw [strcmp_chars_self]⟩,
          ⟨s, s, ht, hs, by rw [strcmp_chars_self]⟩⟩

/-- Instances of C8 on the tokens of `my_class`, `my_struct` and `my_classes`: the chain
`my_class < my_struct < my_classes`, the equal pair `(my_struct, my_struct)`, and the
defined comparison of a zero-terminated record with itself. -/
theorem before_strict_weak_ordering_witness :
    (my_type_index.type_id registered_type.my_class).before
      (my_type_index.type_id registered_type.my_classes) = some true ∧
    ((my_type_index.type_id registered_type.my_struct).before
        (my_type_index.type_id registered_type.my_struct) = some false ∧
      (my_type_index.type_id registered_type.my_struct).before
        (my_type_index.type_id registered_type.my_struct) = some false) ∧
    (my_type_index.type_id registered_type.my_class).before
      (my_type_index.type_id registered_type.my_class) = some false :=
  ⟨(before_strict_weak_ordering (my_type_index.type_id registered_type.my_class)
      (my_type_index.type_id registered_type.my_struct)
      (my_type_index.type_id registered_type.my_classes)).2.1 (by decide) (by decide),
    (before_strict_weak_ordering (my_type_index.type_id registered_type.my_struct)
      (my_type_index.type_id registered_type.my_struct)
      (my_type_index.type_id registered_type.my_struct)).2.2.1 (by decide),
    ((before_strict_weak_ordering (my_type_index.type_id registered_type.my_class)
      (my_type_index.type_id registered_type.my_struct)
      (my_type_index.type_id registered_type.my_classes)).2.2.2.2 rfl rfl).1⟩

/-- C9, counterexample: for the record `{{5, 0}}` passed to the public constructor the index
is 5, the length of the table, and the lookup `names[indx]` is outside the table, with `char`
signed or unsigned. -/
theorem pretty_name_outside_table :
    (my_type_index.ctor ⟨(5, 0)⟩).indx true = 5 ∧
    (my_type_index.ctor ⟨(5, 0)⟩).indx false = 5 ∧
    names.length = 5 ∧
    (my_type_index.ctor ⟨(5, 0)⟩).pretty_name true = none ∧
    (my_type_index.ctor ⟨(5, 0)⟩).pretty_name false = none := by
  decide

/-- C9, amended: for a token built from any record through the public constructor, the index
lies within the table, and `pretty_name()` returns a name, exactly when `type_[0]` is one of
the type numbers 0 to 4; the record of every registered type is such a record. -/
theorem pretty_name_defined_iff (char_signed : Bool) (data : my_typeinfo) :
    ((my_type_index.ctor data).indx char_signed < names.length ↔ data.type_.1.val < 5) ∧
    (((my_type_index.ctor data).pretty_name char_signed).isSome = true
      ↔ data.type_.1.val < 5) ∧
    (∀ T : registered_type, (my_typeinfo_construct T).type_.1.val < 5) := by
  have hlen : names.length = 5 := rfl
  have hidx : (my_type_index.ctor data).indx char_signed < 5 ↔ data.type_.1.val < 5 := by
    unfold my_type_index.indx my_type_index.ctor static_cast_size_t
    cases char_signed
    · simp
    · by_cases h : 128 ≤ data.type_.1.val
      · simp [h]
        omega
      · simp [h]
  refine ⟨?_, ?_, ?_⟩
  · rw [hlen]
    exact hidx
  · unfold my_type_index.pretty_name
    rw [← hidx, ← hlen]
    cases hget : names.get? ((my_type_index.ctor data).indx char_signed) with
    | none =>
      rw [List.get?_eq_none] at hget
      simp
      exact hget
    | some v =>
      have hlt := (List.get?_eq_some.mp hget).1
      simp
      exact hlt
  · intro T
    cases T <;> decide

end my_namespace

/-! ## The selection of the backend and the forwarding functions -/

namespace boost_typeind

/-- C4, counterexample: with `BOOST_MSVC` and `BOOST_NO_RTTI` defined and no user backend
configured, runtime type facilities are unavailable and yet `type_index` is
`stl_type_index`, not `ctti_type_index`. -/
theorem type_index_msvc_without_rtti :
    (config.mk false false false true false true).BOOST_NO_RTTI = true ∧
    included_header (config.mk false false false true false true)
      = header.stl_type_index_hpp ∧
    type_index (config.mk false false false true false true) = backend.stl_type_index ∧
    type_index (config.mk false false false true false true) ≠ backend.ctti_type_index := by
  decide

/-- C4, amended: in a build (not a documentation run) with no user backend configured,
`type_index` is `stl_type_index` exactly when `BOOST_MSVC` is defined or both `BOOST_NO_RTTI`
and `BOOST_TYPE_INDEX_FORCE_NO_RTTI_COMPATIBILITY` are undefined, and it is `ctti_type_index`
in every other such combination; the included header is the one of that backend. -/
theorem type_index_builtin_selection (c : config)
    (hdoc : c.BOOST_TYPE_INDEX_DOXYGEN_INVOKED = false)
    (huser : ¬ (c.BOOST_TYPE_INDEX_USER_TYPEINDEX = true ∧
      c.BOOST_TYPE_INDEX_USER_TYPEINDEX_NAME = true)) :
    (type_index c = backend.stl_type_index ↔
      (c.BOOST_NO_RTTI = false ∧ c.BOOST_TYPE_INDEX_FORCE_NO_RTTI_COMPATIBILITY = false)
        ∨ c.BOOST_MSVC = true) ∧
    (type_index c = backend.ctti_type_index ↔
      ¬ ((c.BOOST_NO_RTTI = false ∧ c.BOOST_TYPE_INDEX_FORCE_NO_RTTI_COMPATIBILITY = false)
        ∨ c.BOOST_MSVC = true)) ∧
    (type_index c = backend.stl_type_index ↔ included_header c = header.stl_type_index_hpp) ∧
    (type_index c = backend.ctti_type_index ↔
      included_header c = header.ctti_type_index_hpp) := by
  rcases c with ⟨d, u, n, r, f, m⟩
  cases d <;> cases u <;> cases n <;> cases r <;> cases f <;> cases m <;>
    simp_all [type_index, included_header]

/-- An instance of the amended C4: RTTI disabled on a compiler other than MSVC selects
`ctti_type_index`. -/
theorem type_index_builtin_selection_witness :
    type_index (config.mk false false false true false false) = backend.ctti_type_index :=
  (type_index_builtin_selection (config.mk false false false true false false) rfl
    (by decide)).2.1.mpr (by decide)

/-- C5: in a build (not a documentation run), `type_index` is the user-supplied backend if
and only if both `BOOST_TYPE_INDEX_USER_TYPEINDEX` and `BOOST_TYPE_INDEX_USER_TYPEINDEX_NAME`
are defined, whatever the other macros; the user header is included under the same
condition; and when at most one of the two is defined a built-in backend is selected. -/
theorem type_index_user_iff (c : config)
    (hdoc : c.BOOST_TYPE_INDEX_DOXYGEN_INVOKED = false) :
    (type_index c = backend.user_typeindex_name ↔
      c.BOOST_TYPE_INDEX_USER_TYPEINDEX = true ∧
        c.BOOST_TYPE_INDEX_USER_TYPEINDEX_NAME = true) ∧
    (included_header c = header.user_typeindex ↔
      c.BOOST_TYPE_INDEX_USER_TYPEINDEX = true ∧
        c.BOOST_TYPE_INDEX_USER_TYPEINDEX_NAME = true) ∧
    (¬ (c.BOOST_TYPE_INDEX_USER_TYPEINDEX = true ∧
        c.BOOST_TYPE_INDEX_USER_TYPEINDEX_NAME = true) →
      type_index c = backend.stl_type_index ∨ type_index c = backend.ctti_type_index) := by
  rcases c with ⟨d, u, n, r, f, m⟩
  cases d <;> cases u <;> cases n <;> cases r <;> cases f <;> cases m <;>
    simp_all [type_index, included_header]

/-- Instances of C5: both macros defined, with RTTI disabled and MSVC, selects the user
backend; only `BOOST_TYPE_INDEX_USER_TYPEINDEX` defined selects a built-in backend. -/
theorem type_index_user_iff_witness :
    type_index (config.mk false true true true true true) = backend.user_typeindex_name ∧
    (type_index (config.mk false true false false false false) = backend.stl_type_index ∨
      type_index (config.mk false true false false false false)
        = backend.ctti_type_index) :=
  ⟨(type_index_user_iff (config.mk false true true true true true) rfl).1.mpr (by decide),
    (type_index_user_iff (config.mk false true false false false false) rfl).2.2
      (by decide)⟩

/-- C6: for every type `T`, `type_id<const T&>()` and `type_id<T&&>()` are the token
`type_id<T>()`, which is the representation of the unqualified type of `T`. -/
theorem type_id_ignores_cvr {U Token : Type} (typeinfo_of : cvr_type U → Token)
    (T : cvr_type U) :
    type_id typeinfo_of (add_lvalue_reference (add_const T)) = type_id typeinfo_of T ∧
    type_id typeinfo_of (add_rvalue_reference T) = type_id typeinfo_of T ∧
    type_id typeinfo_of T
      = typeinfo_of ⟨T.unqualified, false, false, ref_qualifier.none⟩ := by
  rcases T with ⟨u, c, v, r⟩
  cases r <;>
    simp [type_id, construct, remove_cv, remove_reference, add_lvalue_reference,
      add_rvalue_reference, add_const]

/-- C7: for a type `T` without `const`, `volatile`, `&` or `&&`, `type_id_with_cvr<T>()` is
the token `type_id<T>()`. -/
theorem type_id_with_cvr_eq_type_id {U Token : Type} (typeinfo_of : cvr_type U → Token)
    (T : cvr_type U) (hc : T.is_const = false) (hv : T.is_volatile = false)
    (hr : T.reference = ref_qualifier.none) :
    type_id_with_cvr typeinfo_of T = type_id typeinfo_of T := by
  rcases T with ⟨u, c, v, r⟩
  simp only at hc hv hr
  subst hc
  subst hv
  subst hr
  rfl

/-- An instance of C7: the unqualified type numbered 7, the representation being the type
itself. -/
theorem type_id_with_cvr_eq_type_id_witness :
    type_id_with_cvr (fun T : cvr_type Nat => T) ⟨7, false, false, ref_qualifier.none⟩
      = type_id (fun T : cvr_type Nat => T) ⟨7, false, false, ref_qualifier.none⟩ :=
  type_id_with_cvr_eq_type_id (fun T : cvr_type Nat => T)
    ⟨7, false, false, ref_qualifier.none⟩ rfl rfl rfl

end boost_typeind
